import Mathlib

/-!
Shallow embedding of `initiation.py` (class `LEDController`) and proofs about
its press-triggered write pipeline.

Modelling conventions:
* GPIO side effects are recorded as an explicit list of `Event`s
  (LED on/off, RGB color changes, sleeps with their durations in seconds).
* Wall-clock time is a `Nat` (seconds); each call of `datetime.now()` in the
  source reads one clock value, so one execution of `write_data_file` carries
  two clock readings (`tFile` for the filename stamp, `tContent` for the
  content stamp).
* The fallible I/O operations inside `write_data_file`'s `try` block
  (directory creation, file open, file write) are modelled by per-attempt
  boolean outcomes in an `Attempt` record; the `try` body is `write_body`
  (returning `Except`), and `write_data_file` is the `try/except` wrapper
  that converts any raised error into the boolean `False` result.
* The mutable object state (`self.config`, `self.network_connected`) is an
  explicit `CtrlState` threaded through the `_st` functions; the methods of
  the source that assign to it are the only ones whose output state differs
  from the input state.
-/

namespace Initiation

/-- The single-channel LEDs of the controller (`status_led`, `success_led`,
`error_led` pins). -/
inductive Led
  | statusLed
  | successLed
  | errorLed
  deriving DecidableEq, Repr

/-- One observable side effect of the pipeline: a GPIO write or a sleep
(with its duration in seconds). `setRgb r g b` is `set_rgb_color(r, g, b)`. -/
inductive Event
  | ledOn (l : Led)
  | ledOff (l : Led)
  | setRgb (r g b : Bool)
  | sleep (d : ℚ)
  deriving DecidableEq, Repr

/-- The `FILE_SETTINGS` section of the configuration. -/
structure FileCfg where
  save_directory : String
  file_prefix_str : String
  file_extension : String
  deriving DecidableEq, Repr

/-- The `LED_BEHAVIOR` settings read by `handle_button_press`:
`max_retries` and `retry_delay` via `getint`, `blink_duration` via
`getfloat` (modelled as an exact rational). -/
structure Behavior where
  max_retries : Nat
  retry_delay : Nat
  blink_duration : ℚ
  deriving DecidableEq, Repr

/-- The I/O world one call of `write_data_file` sees: whether `mkdir`,
`open` and the `f.write` calls succeed, and the two clock readings taken
by the two `datetime.now()` calls. -/
structure Attempt where
  mkdirOk : Bool
  openOk : Bool
  writeOk : Bool
  tFile : Nat
  tContent : Nat
  deriving DecidableEq, Repr

/-- An exception raised inside `write_data_file`'s `try` block. -/
inductive IOErr
  | mkdirErr
  | openErr
  | writeErr
  deriving DecidableEq, Repr

/-- A file on disk: its path and content. -/
structure FileRec where
  path : String
  content : String
  deriving DecidableEq, Repr

/-- `datetime.now().strftime('%Y%m%d_%H%M%S')`: a second-resolution stamp,
modelled as the decimal representation of the seconds value. -/
def strftime_compact (t : Nat) : String :=
  Nat.repr t

/-- `datetime.now().strftime('%Y-%m-%d %H:%M:%S')`: the human-readable stamp
written into the file content, also second-resolution. -/
def strftime_human (t : Nat) : String :=
  Nat.repr t

/-- `filename = f"{file_prefix}_{timestamp}{file_extension}"`. -/
def mkFilename (fc : FileCfg) (t : Nat) : String :=
  fc.file_prefix_str ++ "_" ++ strftime_compact t ++ fc.file_extension

/-- The content written by the five `f.write` calls of `write_data_file`. -/
def mkContent (net : Bool) (t : Nat) : String :=
  "ADS Data Log\n" ++
  "Timestamp: " ++ strftime_human t ++ "\n" ++
  "Network Status: " ++ (if net then "Connected" else "Disconnected") ++ "\n" ++
  "\n--- TEST Data ---\n" ++
  "Sample data\n"

/-- The body of `write_data_file`'s `try` block: create the directory,
generate the timestamped filename, open and write the file. Any failing
I/O operation raises (returns `.error`). -/
def write_body (fc : FileCfg) (net : Bool) (a : Attempt) : Except IOErr FileRec :=
  if a.mkdirOk = false then .error .mkdirErr
  else
    let filename := mkFilename fc a.tFile
    let filepath := fc.save_directory ++ "/" ++ filename
    if a.openOk = false then .error .openErr
    else if a.writeOk = false then .error .writeErr
    else .ok ⟨filepath, mkContent net a.tContent⟩

/-- The filename the attempt targets: the local `filename` variable of
`write_data_file`, computed right after the `mkdir` (absent when `mkdir`
raised first). -/
def attemptTarget (fc : FileCfg) (a : Attempt) : Option String :=
  if a.mkdirOk then some (mkFilename fc a.tFile) else none

/-- The observable outcome of one call of `write_data_file`: the boolean
result, the filename it targeted, and the file actually written. -/
structure Call where
  ok : Bool
  target : Option String
  written : Option FileRec
  deriving DecidableEq, Repr

/-- `write_data_file`: runs `write_body` under `try`, returning `True` with
the written file on success; the `except Exception` clause converts any
raised error into the `False` result. -/
def write_data_file (fc : FileCfg) (net : Bool) (a : Attempt) : Call :=
  match write_body fc net a with
  | .ok r => ⟨true, attemptTarget fc a, some r⟩
  | .error _ => ⟨false, attemptTarget fc a, none⟩

/-- The mutable state of the `LEDController` object that the press pipeline
reads: the loaded configuration and `self.network_connected`. -/
structure CtrlState where
  behavior : Behavior
  fileCfg : FileCfg
  network_connected : Bool
  deriving DecidableEq, Repr

/-- `write_data_file` as a method on the object state: reads the file
settings and `network_connected` from `self` and performs no assignment. -/
def write_data_file_st (st : CtrlState) (a : Attempt) : Call × CtrlState :=
  (write_data_file st.fileCfg st.network_connected a, st)

/-- `indicate_network_status`: probes connectivity (the probe's boolean
outcome is an input), assigns `self.network_connected`, and sets the RGB
indicator green when connected, red otherwise. -/
def indicate_network_status (st : CtrlState) (probe : Bool) : CtrlState × List Event :=
  let st' := { st with network_connected := probe }
  if st'.network_connected then
    (st', [Event.setRgb false true false])
  else
    (st', [Event.setRgb true false false])

/-- One burst of `n` error-LED blinks: `for _ in range(n): on; sleep d;
off; sleep d`. -/
def blinkBurst (d : ℚ) : Nat → List Event
  | 0 => []
  | n + 1 =>
      [Event.ledOn .errorLed, Event.sleep d, Event.ledOff .errorLed, Event.sleep d] ++
        blinkBurst d n

/-- The events of the successful-return path of `handle_button_press`:
status LED off, success LED on for 2 seconds, then off. -/
def successTail : List Event :=
  [Event.ledOff .statusLed, Event.ledOn .successLed, Event.sleep 2,
   Event.ledOff .successLed]

/-- The events of the all-retries-failed path of `handle_button_press`:
status LED off, continuous red indicator, error LED held on. -/
def failTail : List Event :=
  [Event.ledOff .statusLed, Event.setRgb true false false, Event.ledOn .errorLed]

/-- The result of one run of `handle_button_press`: its boolean return
value, the GPIO/sleep event trace, and the outcomes of its
`write_data_file` calls in order. -/
structure PressTrace where
  result : Bool
  events : List Event
  calls : List Call
  deriving DecidableEq, Repr

/-- The `for retry in range(1, max_retries + 1)` loop of
`handle_button_press`: `retry` is the loop variable, `remaining` the
iterations left (initially `retry = 1`, `remaining = max_retries`). Each
iteration blinks the error LED `retry` times, sleeps `retry_delay`, then
calls `write_data_file`; success returns immediately with the success-LED
pulse. `ws i` is the I/O world seen by attempt index `i`. -/
def retry_loop (ws : Nat → Attempt) : CtrlState → Nat → Nat → PressTrace × CtrlState
  | st, _retry, 0 => (⟨false, [], []⟩, st)
  | st, retry, remaining + 1 =>
      let burst := blinkBurst st.behavior.blink_duration retry ++
        [Event.sleep (st.behavior.retry_delay : ℚ)]
      let c := (write_data_file_st st (ws retry)).1
      let st1 := (write_data_file_st st (ws retry)).2
      if c.ok then
        (⟨true, burst ++ successTail, [c]⟩, st1)
      else
        let rest := retry_loop ws st1 (retry + 1) remaining
        (⟨rest.1.result, burst ++ rest.1.events, c :: rest.1.calls⟩, rest.2)

/-- `handle_button_press`: raise the status LED and hold 0.5 s, make the
initial attempt (index 0), and on failure run the retry loop; if every
attempt fails, lower the status LED, set the indicator to continuous red,
hold the error LED on, and return `False`. -/
def handle_button_press (st : CtrlState) (ws : Nat → Attempt) : PressTrace × CtrlState :=
  let pre : List Event := [Event.ledOn .statusLed, Event.sleep (1 / 2 : ℚ)]
  let c0 := (write_data_file_st st (ws 0)).1
  let st0 := (write_data_file_st st (ws 0)).2
  if c0.ok then
    (⟨true, pre ++ successTail, [c0]⟩, st0)
  else
    let rest := retry_loop ws st0 1 st.behavior.max_retries
    if rest.1.result then
      (⟨true, pre ++ rest.1.events, c0 :: rest.1.calls⟩, rest.2)
    else
      (⟨false, pre ++ rest.1.events ++ failTail, c0 :: rest.1.calls⟩, rest.2)

/-- A sampled level of the button input pin (`GPIO.LOW` when pressed, via
the pull-up). -/
inductive Level
  | low
  | high
  deriving DecidableEq, Repr

/-- Outcome of `file_write_mode`: how many times it invoked
`handle_button_press` and the value it returned (`none` when the sample
list ran out with no qualifying press yet: the real loop would still be
polling). -/
structure ModeRun where
  invocations : Nat
  fileWritten : Option Bool
  deriving DecidableEq, Repr

/-- The polling loop of `file_write_mode` over a list of button samples,
carrying `button_pressed_last`: a LOW sample with the flag down invokes the
pipeline once (result `pressResult`) and `break`s out of the loop; a HIGH
sample lowers the flag. -/
def file_write_mode_loop (pressResult : Bool) : List Level → Bool → ModeRun
  | [], _ => ⟨0, none⟩
  | Level.low :: _, false => ⟨1, some pressResult⟩
  | Level.low :: rest, true => file_write_mode_loop pressResult rest true
  | Level.high :: rest, _ => file_write_mode_loop pressResult rest false

/-- `file_write_mode`: polls the button and handles at most one press
(`button_pressed_last` starts `False`). -/
def file_write_mode (pressResult : Bool) (samples : List Level) : ModeRun :=
  file_write_mode_loop pressResult samples false

/-- The boolean outcome of attempt index `i` of a press: the result of
`write_data_file` run on the object state and attempt `i`'s I/O world. -/
def attemptOk (st : CtrlState) (ws : Nat → Attempt) (i : Nat) : Bool :=
  (write_data_file st.fileCfg st.network_connected (ws i)).ok

/-- The events the retry loop emits when every attempt in its window fails:
one blink burst of size `retry + j` followed by the `retry_delay` sleep,
for each remaining iteration `j = 0, 1, ...`. -/
def failBursts (bd rd : ℚ) (retry : Nat) : Nat → List Event
  | 0 => []
  | remaining + 1 =>
      blinkBurst bd retry ++ [Event.sleep rd] ++ failBursts bd rd (retry + 1) remaining

/-- The events `handle_button_press` emits before the initial attempt:
status LED up, 0.5 s hold. -/
def pressPre : List Event :=
  [Event.ledOn .statusLed, Event.sleep (1 / 2 : ℚ)]

/-- Modelled from the spec: the Remote Replicator (§6) is absent from the
source under `src/`; its outcome on one invocation is success (`copied`) or
one of the two failure modes, timeout and non-zero exit. -/
inductive RemoteOutcome
  | copied
  | timedOut
  | nonZeroExit
  deriving DecidableEq, Repr

/-- Modelled from the spec: the observable record of one `write_once` call
(§4.4) — its boolean outcome, whether the local write succeeded, and
whether the Remote Replicator was invoked. -/
structure RCall where
  ok : Bool
  localOk : Bool
  remoteTried : Bool
  deriving DecidableEq, Repr

/-- Modelled from the spec: `write_once(record, replicate_to_remote)` of
§4.4, absent from the source under `src/` (the source's `write_data_file`
performs only the local write). The local write runs first; if it fails, the
attempt fails without invoking the replicator. If replication is not
requested, local success is attempt success. Otherwise the Remote Replicator
runs, and timeout or non-zero exit makes the attempt a failure even though
the local write succeeded. -/
def write_once (fc : FileCfg) (net : Bool) (a : Attempt) (replicate : Bool)
    (r : RemoteOutcome) : RCall :=
  if (write_data_file fc net a).ok = false then ⟨false, false, false⟩
  else if replicate = false then ⟨true, true, false⟩
  else
    match r with
    | .copied => ⟨true, true, true⟩
    | .timedOut => ⟨false, true, true⟩
    | .nonZeroExit => ⟨false, true, true⟩

/-- Modelled from the spec: the retry loop of §4.3 running over `write_once`
instead of the local-only `write_data_file` (same loop structure as the
source's `handle_button_press`): attempts `retry, retry + 1, ...` with
`remaining` iterations left; `ws i` and `rs i` are the local I/O world and
the Remote Replicator outcome seen by attempt index `i`. -/
def retry_loop_repl (fc : FileCfg) (net : Bool) (ws : Nat → Attempt)
    (rs : Nat → RemoteOutcome) (replicate : Bool) : Nat → Nat → Bool × List RCall
  | _retry, 0 => (false, [])
  | retry, remaining + 1 =>
      let c := write_once fc net (ws retry) replicate (rs retry)
      if c.ok then
        (true, [c])
      else
        let rest := retry_loop_repl fc net ws rs replicate (retry + 1) remaining
        (rest.1, c :: rest.2)

/-- Modelled from the spec: `handle_press(record, replicate_to_remote)` of
§4.3 over `write_once` — initial attempt 0, then up to `max_retries`
retries, success short-circuiting. -/
def handle_press_repl (st : CtrlState) (ws : Nat → Attempt)
    (rs : Nat → RemoteOutcome) (replicate : Bool) : Bool × List RCall :=
  let c0 := write_once st.fileCfg st.network_connected (ws 0) replicate (rs 0)
  if c0.ok then
    (true, [c0])
  else
    let rest := retry_loop_repl st.fileCfg st.network_connected ws rs replicate 1
      st.behavior.max_retries
    (rest.1, c0 :: rest.2)

/-! Concrete fixtures used by witnesses and counterexamples. -/

/-- A concrete `FILE_SETTINGS` configuration (the default one of the
source). -/
def fcEx : FileCfg :=
  ⟨"./data_logs", "TEST_DATA", ".txt"⟩

/-- A concrete `LED_BEHAVIOR` configuration (the default one of the source:
`max_retries = 3`, `retry_delay = 2`, `blink_duration = 0.5`). -/
def behEx : Behavior :=
  ⟨3, 2, 1 / 2⟩

/-- A concrete controller state with the default configuration and the
network connected. -/
def stEx : CtrlState :=
  ⟨behEx, fcEx, true⟩

/-- An attempt world whose file write raises, clock at second 100. -/
def aFail : Attempt :=
  ⟨true, true, false, 100, 100⟩

/-- An attempt world where everything succeeds, clock at second 101. -/
def aOk : Attempt :=
  ⟨true, true, true, 101, 101⟩

/-- An attempt world whose directory creation raises, clock at second 100. -/
def aMkdirFail : Attempt :=
  ⟨false, true, true, 100, 100⟩

/-- Every attempt of the press fails in the file write. -/
def wsAllFail : Nat → Attempt := fun _ => aFail

/-- Every attempt of the press fails in the directory creation. -/
def wsMkdirFail : Nat → Attempt := fun _ => aMkdirFail

/-- Attempt 0 fails (clock second 100); every later attempt succeeds one
second later (clock second 101). -/
def wsSecond : Nat → Attempt := fun i => if i = 0 then aFail else aOk

/-- Every attempt's local write succeeds. -/
def wsAllOk : Nat → Attempt := fun _ => aOk

/-- The Remote Replicator times out on every invocation. -/
def rsTimeout : Nat → RemoteOutcome := fun _ => RemoteOutcome.timedOut

/-- Number of completed error-LED blinks in a trace: each blink of the
burst loop turns the error LED off exactly once (and the terminal
"error LED held on" of the failure path never does). -/
def countOffErr : List Event → Nat
  | [] => 0
  | e :: rest => (if e = Event.ledOff Led.errorLed then 1 else 0) + countOffErr rest

/-! Lemmas about the pipeline. -/

lemma write_data_file_target (fc : FileCfg) (net : Bool) (a : Attempt) :
    (write_data_file fc net a).target = attemptTarget fc a := by
  unfold write_data_file
  cases h : write_body fc net a <;> simp

lemma retry_loop_state (ws : Nat → Attempt) (st : CtrlState) :
    ∀ remaining retry, (retry_loop ws st retry remaining).2 = st := by
  intro remaining
  induction remaining with
  | zero => intro retry; rfl
  | succ m ih =>
    intro retry
    simp only [retry_loop, write_data_file_st]
    by_cases h : (write_data_file st.fileCfg st.network_connected (ws retry)).ok
    · simp [h]
    · simp [h, ih]

lemma retry_loop_allFail (ws : Nat → Attempt) (st : CtrlState) :
    ∀ remaining retry,
    (∀ i, retry ≤ i → i < retry + remaining →
      (write_data_file st.fileCfg st.network_connected (ws i)).ok = false) →
    (retry_loop ws st retry remaining).1.result = false ∧
    (retry_loop ws st retry remaining).1.calls.length = remaining ∧
    (retry_loop ws st retry remaining).1.events =
      failBursts st.behavior.blink_duration (st.behavior.retry_delay : ℚ) retry remaining := by
  intro remaining
  induction remaining with
  | zero => intro retry _; exact ⟨rfl, rfl, rfl⟩
  | succ m ih =>
    intro retry h
    have hr : (write_data_file st.fileCfg st.network_connected (ws retry)).ok = false :=
      h retry le_rfl (by omega)
    have hrec := ih (retry + 1) (fun i h1 h2 => h i (by omega) (by omega))
    simp only [retry_loop, write_data_file_st, hr, Bool.false_eq_true, if_false]
    refine ⟨hrec.1, by simp [hrec.2.1], ?_⟩
    simp [hrec.2.2, failBursts]

lemma retry_loop_firstSuccess (ws : Nat → Attempt) (st : CtrlState) :
    ∀ remaining retry k,
    retry ≤ k → k < retry + remaining →
    (∀ i, retry ≤ i → i < k →
      (write_data_file st.fileCfg st.network_connected (ws i)).ok = false) →
    (write_data_file st.fileCfg st.network_connected (ws k)).ok = true →
    (retry_loop ws st retry remaining).1.result = true ∧
    (retry_loop ws st retry remaining).1.calls.length = k - retry + 1 := by
  intro remaining
  induction remaining with
  | zero => intro retry k h1 h2 _ _; omega
  | succ m ih =>
    intro retry k h1 h2 hfail hsucc
    by_cases hk : retry = k
    · subst hk
      simp only [retry_loop, write_data_file_st, hsucc, if_true]
      exact ⟨by simp, by simp⟩
    · have hr : (write_data_file st.fileCfg st.network_connected (ws retry)).ok = false :=
        hfail retry le_rfl (by omega)
      have hrec := ih (retry + 1) k (by omega) (by omega)
        (fun i hi1 hi2 => hfail i (by omega) hi2) hsucc
      simp only [retry_loop, write_data_file_st, hr, Bool.false_eq_true, if_false]
      refine ⟨hrec.1, ?_⟩
      simp only [List.length_cons, hrec.2]
      omega

lemma retry_loop_true_suffix (ws : Nat → Attempt) (st : CtrlState) :
    ∀ remaining retry, (retry_loop ws st retry remaining).1.result = true →
    successTail <:+ (retry_loop ws st retry remaining).1.events := by
  intro remaining
  induction remaining with
  | zero => intro retry h; exact absurd h (by simp [retry_loop])
  | succ m ih =>
    intro retry h
    by_cases hr : (write_data_file st.fileCfg st.network_connected (ws retry)).ok
    · simp only [retry_loop, write_data_file_st, hr, if_true]
      exact List.suffix_append _ _
    · simp only [retry_loop, write_data_file_st, hr, Bool.false_eq_true, if_false] at h ⊢
      exact (ih (retry + 1) h).trans (List.suffix_append _ _)

lemma retry_loop_calls_get (ws : Nat → Attempt) (st : CtrlState) :
    ∀ remaining retry k c,
    (retry_loop ws st retry remaining).1.calls[k]? = some c →
    c = write_data_file st.fileCfg st.network_connected (ws (retry + k)) := by
  intro remaining
  induction remaining with
  | zero => intro retry k c h; simp [retry_loop] at h
  | succ m ih =>
    intro retry k c h
    by_cases hr : (write_data_file st.fileCfg st.network_connected (ws retry)).ok
    · simp only [retry_loop, write_data_file_st, hr, if_true] at h
      cases k with
      | zero => simp at h; simp [← h]
      | succ k => simp at h
    · simp only [retry_loop, write_data_file_st, hr, Bool.false_eq_true, if_false] at h
      cases k with
      | zero => simp at h; simp [← h]
      | succ k =>
        simp only [List.getElem?_cons_succ] at h
        have hrec := ih (retry + 1) k c h
        have harg : retry + 1 + k = retry + (k + 1) := by omega
        rw [harg] at hrec
        exact hrec

lemma handle_state (st : CtrlState) (ws : Nat → Attempt) :
    (handle_button_press st ws).2 = st := by
  simp only [handle_button_press, write_data_file_st]
  by_cases h0 : (write_data_file st.fileCfg st.network_connected (ws 0)).ok
  · simp [h0]
  · simp only [h0, Bool.false_eq_true, if_false]
    by_cases hr : (retry_loop ws st 1 st.behavior.max_retries).1.result
    · simp [hr, retry_loop_state]
    · simp [hr, retry_loop_state]

lemma handle_allFail (st : CtrlState) (ws : Nat → Attempt)
    (h : ∀ i, i ≤ st.behavior.max_retries → attemptOk st ws i = false) :
    (handle_button_press st ws).1.result = false ∧
    (handle_button_press st ws).1.calls.length = st.behavior.max_retries + 1 ∧
    (handle_button_press st ws).1.events =
      pressPre ++
        failBursts st.behavior.blink_duration (st.behavior.retry_delay : ℚ) 1
          st.behavior.max_retries ++ failTail := by
  have h0 : (write_data_file st.fileCfg st.network_connected (ws 0)).ok = false :=
    h 0 (Nat.zero_le _)
  have hrec := retry_loop_allFail ws st st.behavior.max_retries 1
    (fun i h1 h2 => h i (by omega))
  simp only [handle_button_press, write_data_file_st, h0, Bool.false_eq_true, if_false,
    hrec.1]
  refine ⟨by simp, by simp [hrec.2.1], ?_⟩
  simp [hrec.2.2, pressPre]

lemma handle_firstSuccess (st : CtrlState) (ws : Nat → Attempt) (k : Nat)
    (hk : k ≤ st.behavior.max_retries)
    (hfail : ∀ i, i < k → attemptOk st ws i = false)
    (hsucc : attemptOk st ws k = true) :
    (handle_button_press st ws).1.result = true ∧
    (handle_button_press st ws).1.calls.length = k + 1 := by
  cases k with
  | zero =>
    have h0 : (write_data_file st.fileCfg st.network_connected (ws 0)).ok = true := hsucc
    simp only [handle_button_press, write_data_file_st, h0, if_true]
    exact ⟨by simp, by simp⟩
  | succ k =>
    have h0 : (write_data_file st.fileCfg st.network_connected (ws 0)).ok = false :=
      hfail 0 (Nat.succ_pos k)
    have hrec := retry_loop_firstSuccess ws st st.behavior.max_retries 1 (k + 1)
      (by omega) (by omega) (fun i h1 h2 => hfail i h2) hsucc
    simp only [handle_button_press, write_data_file_st, h0, Bool.false_eq_true, if_false,
      hrec.1, if_true]
    refine ⟨by simp, ?_⟩
    simp only [List.length_cons, hrec.2]
    omega

lemma handle_calls_get (st : CtrlState) (ws : Nat → Attempt) (k : Nat) (c : Call)
    (h : (handle_button_press st ws).1.calls[k]? = some c) :
    c = write_data_file st.fileCfg st.network_connected (ws k) := by
  by_cases h0 : (write_data_file st.fileCfg st.network_connected (ws 0)).ok
  · simp only [handle_button_press, write_data_file_st, h0, if_true] at h
    cases k with
    | zero => simp at h; simp [← h]
    | succ k => simp at h
  · simp only [handle_button_press, write_data_file_st, h0, Bool.false_eq_true,
      if_false] at h
    by_cases hr : (retry_loop ws st 1 st.behavior.max_retries).1.result
    · simp only [hr, if_true] at h
      cases k with
      | zero => simp at h; simp [← h]
      | succ k =>
        simp only [List.getElem?_cons_succ] at h
        have hrec := retry_loop_calls_get ws st st.behavior.max_retries 1 k c h
        have harg : 1 + k = k + 1 := by omega
        rw [harg] at hrec
        exact hrec
    · simp only [hr, Bool.false_eq_true, if_false] at h
      cases k with
      | zero => simp at h; simp [← h]
      | succ k =>
        simp only [List.getElem?_cons_succ] at h
        have hrec := retry_loop_calls_get ws st st.behavior.max_retries 1 k c h
        have harg : 1 + k = k + 1 := by omega
        rw [harg] at hrec
        exact hrec

lemma handle_true_suffix (st : CtrlState) (ws : Nat → Attempt)
    (h : (handle_button_press st ws).1.result = true) :
    successTail <:+ (handle_button_press st ws).1.events := by
  by_cases h0 : (write_data_file st.fileCfg st.network_connected (ws 0)).ok
  · simp only [handle_button_press, write_data_file_st, h0, if_true]
    exact List.suffix_append _ _
  · simp only [handle_button_press, write_data_file_st, h0, Bool.false_eq_true,
      if_false] at h ⊢
    by_cases hr : (retry_loop ws st 1 st.behavior.max_retries).1.result
    · simp only [hr, if_true]
      exact (retry_loop_true_suffix ws st st.behavior.max_retries 1 hr).trans
        (List.suffix_append _ _)
    · simp [hr] at h

lemma file_write_mode_loop_le_one (r : Bool) :
    ∀ samples lastP, (file_write_mode_loop r samples lastP).invocations ≤ 1 := by
  intro samples
  induction samples with
  | nil => intro lastP; simp [file_write_mode_loop]
  | cons s rest ih =>
    intro lastP
    cases s <;> cases lastP <;> simp [file_write_mode_loop, ih]

lemma countOffErr_blinkBurst (d : ℚ) : ∀ n, countOffErr (blinkBurst d n) = n := by
  intro n
  induction n with
  | zero => rfl
  | succ m ih => simp [blinkBurst, countOffErr, ih]; omega

lemma write_once_remote_fail (fc : FileCfg) (net : Bool) (a : Attempt)
    (r : RemoteOutcome) (hl : (write_data_file fc net a).ok = true)
    (hr : r ≠ RemoteOutcome.copied) :
    write_once fc net a true r = ⟨false, true, true⟩ := by
  cases r with
  | copied => exact absurd rfl hr
  | timedOut => simp [write_once, hl]
  | nonZeroExit => simp [write_once, hl]

lemma retry_loop_repl_allFail (fc : FileCfg) (net : Bool) (ws : Nat → Attempt)
    (rs : Nat → RemoteOutcome) :
    ∀ remaining retry,
    (∀ i, retry ≤ i → i < retry + remaining →
      write_once fc net (ws i) true (rs i) = ⟨false, true, true⟩) →
    retry_loop_repl fc net ws rs true retry remaining =
      (false, List.replicate remaining ⟨false, true, true⟩) := by
  intro remaining
  induction remaining with
  | zero => intro retry _; rfl
  | succ m ih =>
    intro retry h
    have hr : write_once fc net (ws retry) true (rs retry) = ⟨false, true, true⟩ :=
      h retry le_rfl (by omega)
    have hrec := ih (retry + 1) (fun i h1 h2 => h i (by omega) (by omega))
    simp [retry_loop_repl, hr, hrec, List.replicate_succ]

/-! The claims. -/

/-- C1: for every configuration (`max_retries = N ≥ 0`) and every press,
exactly `N + 1` calls of `write_data_file` occur when every attempt fails,
and exactly `k + 1` calls occur when attempt index `k` (0-based) is the
first to succeed, in which case the pipeline returns success immediately and
makes no further attempts. -/
theorem C1_attempt_budget (st : CtrlState) (ws : Nat → Attempt) :
    ((∀ i, i ≤ st.behavior.max_retries → attemptOk st ws i = false) →
      (handle_button_press st ws).1.calls.length = st.behavior.max_retries + 1) ∧
    (∀ k, k ≤ st.behavior.max_retries →
      (∀ i, i < k → attemptOk st ws i = false) → attemptOk st ws k = true →
      (handle_button_press st ws).1.result = true ∧
      (handle_button_press st ws).1.calls.length = k + 1) :=
  ⟨fun h => (handle_allFail st ws h).2.1,
   fun k hk hf hs => handle_firstSuccess st ws k hk hf hs⟩

/-- C1 witness: with the default configuration (`max_retries = 3`) a press
whose every attempt fails makes 4 calls, and a press whose attempt 1 is the
first to succeed returns success after 2 calls. -/
theorem C1_attempt_budget_witness :
    (handle_button_press stEx wsAllFail).1.calls.length = 3 + 1 ∧
    ((handle_button_press stEx wsSecond).1.result = true ∧
      (handle_button_press stEx wsSecond).1.calls.length = 1 + 1) :=
  ⟨(C1_attempt_budget stEx wsAllFail).1 (by decide),
   (C1_attempt_budget stEx wsSecond).2 1 (by decide) (by decide) (by decide)⟩

/-- C2 counterexample: with the default configuration, a press whose
attempt 0 fails in the file write at clock second 100 and whose attempt 1
runs at clock second 101 targets two different filenames — the timestamp is
regenerated inside each `write_data_file` call, not frozen at press time. -/
theorem C2_counterexample :
    (handle_button_press stEx wsSecond).1.calls.map Call.target =
      [some "TEST_DATA_100.txt", some "TEST_DATA_101.txt"] ∧
    (some "TEST_DATA_100.txt" : Option String) ≠ some "TEST_DATA_101.txt" := by
  decide

/-- C2 amended: within one press, call `k` of the retry sequence is a fresh
run of `write_data_file` on attempt `k`'s own I/O world, and the filename it
targets carries attempt `k`'s own clock reading — so attempts target the
same file with the same payload exactly when their clock readings agree, not
unconditionally. -/
theorem C2_target_per_attempt (st : CtrlState) (ws : Nat → Attempt) (k : Nat)
    (c : Call) (h : (handle_button_press st ws).1.calls[k]? = some c) :
    c = write_data_file st.fileCfg st.network_connected (ws k) ∧
    c.target = attemptTarget st.fileCfg (ws k) := by
  have h1 := handle_calls_get st ws k c h
  exact ⟨h1, by rw [h1, write_data_file_target]⟩

/-- C2 witness: call 1 of the concrete press is the run of `write_data_file`
on attempt 1's world, targeting the filename stamped with attempt 1's clock
reading (second 101). -/
theorem C2_target_per_attempt_witness :
    (⟨true, some "TEST_DATA_101.txt",
        some ⟨"./data_logs/TEST_DATA_101.txt", mkContent true 101⟩⟩ : Call) =
      write_data_file stEx.fileCfg stEx.network_connected (wsSecond 1) ∧
    (⟨true, some "TEST_DATA_101.txt",
        some ⟨"./data_logs/TEST_DATA_101.txt", mkContent true 101⟩⟩ : Call).target =
      attemptTarget stEx.fileCfg (wsSecond 1) :=
  C2_target_per_attempt stEx wsSecond 1 _ (by decide)

/-- C3 counterexample: default configuration (`max_retries = 3`), all four
attempts fail: the trace contains 6 completed error-LED blinks (bursts of
1, 2, 3 before retries 1, 2, 3), not the 1 + 2 + 3 + 4 = 10 the claim
requires — the final attempt's failure is not followed by a blink burst. -/
theorem C3_counterexample :
    countOffErr (handle_button_press stEx wsAllFail).1.events = 6 ∧
    countOffErr (handle_button_press stEx wsAllFail).1.events ≠ 1 + 2 + 3 + 4 := by
  decide

/-- C3 amended: the failure of attempt `k` is signaled by a burst of `k + 1`
error-LED blinks only for `k < max_retries` (the burst opens retry `k + 1`);
the final attempt's failure produces no burst. When every attempt fails the
trace is the status-LED raise and hold, then for each retry
`r = 1 .. max_retries` a burst of `r` blinks followed by the retry delay,
then the terminal failure events; and a burst of `n` blinks completes the
error LED cycle exactly `n` times (each blink: on for `blink_duration`, off
for `blink_duration`). With `max_retries = 3` and all four attempts failing
the burst sizes are therefore 1, 2, 3. -/
theorem C3_blink_escalation (st : CtrlState) (ws : Nat → Attempt) :
    ((∀ i, i ≤ st.behavior.max_retries → attemptOk st ws i = false) →
      (handle_button_press st ws).1.events =
        pressPre ++
          failBursts st.behavior.blink_duration (st.behavior.retry_delay : ℚ) 1
            st.behavior.max_retries ++ failTail) ∧
    (∀ d n, countOffErr (blinkBurst d n) = n) :=
  ⟨fun h => (handle_allFail st ws h).2.2, fun d n => countOffErr_blinkBurst d n⟩

/-- C3 witness: the concrete all-fail press with the default configuration
emits exactly the status hold, bursts of 1, 2, 3 blinks with their delays,
and the terminal failure events. -/
theorem C3_blink_escalation_witness :
    (handle_button_press stEx wsAllFail).1.events =
      pressPre ++
        failBursts stEx.behavior.blink_duration (stEx.behavior.retry_delay : ℚ) 1
          stEx.behavior.max_retries ++ failTail :=
  (C3_blink_escalation stEx wsAllFail).1 (by decide)

/-- C4 (spec-modelled): when replication is requested and the local write
succeeds but the replicator fails (timeout or non-zero exit), the single
attempt is a failure, not a success; and a press whose every attempt is in
that situation re-attempts both the local write and the remote copy on every
retry — all `max_retries + 1` `write_once` calls record a successful local
write and an invoked replicator — and returns failure. -/
theorem C4_remote_failure (st : CtrlState) (ws : Nat → Attempt)
    (rs : Nat → RemoteOutcome) :
    (∀ fc net a r, (write_data_file fc net a).ok = true →
      r ≠ RemoteOutcome.copied → (write_once fc net a true r).ok = false) ∧
    ((∀ i, i ≤ st.behavior.max_retries → attemptOk st ws i = true) →
      (∀ i, i ≤ st.behavior.max_retries → rs i ≠ RemoteOutcome.copied) →
      handle_press_repl st ws rs true =
        (false, List.replicate (st.behavior.max_retries + 1) ⟨false, true, true⟩)) := by
  constructor
  · intro fc net a r hl hr
    rw [write_once_remote_fail fc net a r hl hr]
  · intro hl hr
    have hall : ∀ i, i ≤ st.behavior.max_retries →
        write_once st.fileCfg st.network_connected (ws i) true (rs i) =
          ⟨false, true, true⟩ :=
      fun i hi => write_once_remote_fail _ _ _ _ (hl i hi) (hr i hi)
    have h0 := hall 0 (Nat.zero_le _)
    have hrec := retry_loop_repl_allFail st.fileCfg st.network_connected ws rs
      st.behavior.max_retries 1 (fun i h1 h2 => hall i (by omega))
    simp [handle_press_repl, h0, hrec, List.replicate_succ]

/-- C4 witness: with the default configuration, every local write succeeding
and the replicator timing out on every invocation, the single attempt fails
and the press makes 4 failing `write_once` calls, each with the local write
done and the replicator invoked. -/
theorem C4_remote_failure_witness :
    (write_once fcEx true aOk true RemoteOutcome.timedOut).ok = false ∧
    handle_press_repl stEx wsAllOk rsTimeout true =
      (false, List.replicate (3 + 1) ⟨false, true, true⟩) :=
  ⟨(C4_remote_failure stEx wsAllOk rsTimeout).1 fcEx true aOk
      RemoteOutcome.timedOut (by decide) (by decide),
   (C4_remote_failure stEx wsAllOk rsTimeout).2 (by decide) (by decide)⟩

/-- C5: when all `max_retries + 1` attempts of a press fail, the pipeline
lowers the status LED, sets the indicator to steady red and holds the error
LED on (the trace ends with exactly these events), and returns `False`; its
caller `file_write_mode` never invokes the pipeline more than once, so it
does not retry on its own. -/
theorem C5_exhaustion (st : CtrlState) (ws : Nat → Attempt)
    (h : ∀ i, i ≤ st.behavior.max_retries → attemptOk st ws i = false) :
    (handle_button_press st ws).1.result = false ∧
    failTail <:+ (handle_button_press st ws).1.events ∧
    (∀ samples,
      (file_write_mode (handle_button_press st ws).1.result samples).invocations ≤ 1) := by
  have ha := handle_allFail st ws h
  refine ⟨ha.1, ?_, fun samples => file_write_mode_loop_le_one _ samples false⟩
  rw [ha.2.2]
  exact List.suffix_append _ _

/-- C5 witness: the concrete all-fail press returns `False`, its trace ends
with the failure events, and the caller invokes the pipeline at most once on
a one-sample trace. -/
theorem C5_exhaustion_witness :
    (handle_button_press stEx wsAllFail).1.result = false ∧
    failTail <:+ (handle_button_press stEx wsAllFail).1.events ∧
    (file_write_mode (handle_button_press stEx wsAllFail).1.result
      [Level.low]).invocations ≤ 1 :=
  ⟨(C5_exhaustion stEx wsAllFail (by decide)).1,
   (C5_exhaustion stEx wsAllFail (by decide)).2.1,
   (C5_exhaustion stEx wsAllFail (by decide)).2.2 [Level.low]⟩

/-- C6 counterexample: with the default configuration, when directory
creation fails on every attempt the press still runs all 4 attempts and
returns `False` — the `mkdir` failure is a retried per-attempt failure, not
a fatal setup error aborting before press handling. -/
theorem C6_counterexample :
    (write_data_file fcEx true aMkdirFail).ok = false ∧
    (handle_button_press stEx wsMkdirFail).1.calls.length = 4 ∧
    (handle_button_press stEx wsMkdirFail).1.result = false := by
  decide

/-- C6 amended: a failure to create the save directory is caught inside
`write_data_file` — whose `try` block performs the `mkdir` on every attempt
— and converted into that attempt's boolean failure; like any other attempt
failure it is retried, so a press whose every attempt fails at the `mkdir`
exhausts all `max_retries + 1` attempts and returns failure instead of
aborting. -/
theorem C6_mkdir_retried (st : CtrlState) (ws : Nat → Attempt) (fc : FileCfg)
    (net : Bool) (a : Attempt) :
    (a.mkdirOk = false → write_data_file fc net a = ⟨false, none, none⟩) ∧
    ((∀ i, i ≤ st.behavior.max_retries → (ws i).mkdirOk = false) →
      (handle_button_press st ws).1.calls.length = st.behavior.max_retries + 1 ∧
      (handle_button_press st ws).1.result = false) := by
  constructor
  · intro hm
    simp [write_data_file, write_body, hm, attemptTarget]
  · intro hm
    have h : ∀ i, i ≤ st.behavior.max_retries → attemptOk st ws i = false := by
      intro i hi
      simp [attemptOk, write_data_file, write_body, hm i hi]
    exact ⟨(handle_allFail st ws h).2.1, (handle_allFail st ws h).1⟩

/-- C6 witness: the concrete mkdir-failing attempt yields the boolean
failure, and the concrete press whose every attempt fails at the `mkdir`
makes 4 calls and returns `False`. -/
theorem C6_mkdir_retried_witness :
    write_data_file fcEx true aMkdirFail = ⟨false, none, none⟩ ∧
    ((handle_button_press stEx wsMkdirFail).1.calls.length = 3 + 1 ∧
      (handle_button_press stEx wsMkdirFail).1.result = false) :=
  ⟨(C6_mkdir_retried stEx wsMkdirFail fcEx true aMkdirFail).1 (by decide),
   (C6_mkdir_retried stEx wsMkdirFail fcEx true aMkdirFail).2 (by decide)⟩

/-- C7: every error raised inside `write_data_file`'s `try` body is caught
and converted into the boolean failure result, and a body that raises
nothing yields the boolean success result — for every I/O world and every
failing operation, no exception escapes the attempt boundary into the retry
loop, which consumes only the boolean. -/
theorem C7_errors_caught (fc : FileCfg) (net : Bool) (a : Attempt) :
    (∀ e, write_body fc net a = .error e → (write_data_file fc net a).ok = false) ∧
    (∀ r, write_body fc net a = .ok r → (write_data_file fc net a).ok = true) := by
  constructor <;> intro x hx <;> simp [write_data_file, hx]

/-- C7 witness: the attempt whose file write raises yields `False`; the
attempt that raises nothing yields `True`. -/
theorem C7_errors_caught_witness :
    (write_data_file fcEx true aFail).ok = false ∧
    (write_data_file fcEx true aOk).ok = true :=
  ⟨(C7_errors_caught fcEx true aFail).1 IOErr.writeErr rfl,
   (C7_errors_caught fcEx true aOk).2
     ⟨"./data_logs/TEST_DATA_101.txt", mkContent true 101⟩ rfl⟩

/-- C8: on any nonempty sample trace in which the button input is
continuously low, `file_write_mode` invokes the press pipeline exactly once
and returns its result — no re-trigger occurs while the input stays low. -/
theorem C8_single_trigger (st : CtrlState) (ws : Nat → Attempt)
    (samples : List Level) (hne : samples ≠ [])
    (hlow : ∀ s, s ∈ samples → s = Level.low) :
    file_write_mode (handle_button_press st ws).1.result samples =
      ⟨1, some (handle_button_press st ws).1.result⟩ := by
  cases samples with
  | nil => exact absurd rfl hne
  | cons s rest =>
    have hs : s = Level.low := hlow s (List.mem_cons_self _ _)
    subst hs
    rfl

/-- C8 witness: a two-sample continuously-low trace triggers the concrete
press exactly once. -/
theorem C8_single_trigger_witness :
    file_write_mode (handle_button_press stEx wsSecond).1.result
        [Level.low, Level.low] =
      ⟨1, some (handle_button_press stEx wsSecond).1.result⟩ :=
  C8_single_trigger stEx wsSecond [Level.low, Level.low] (by decide) (by decide)

/-- C9: whenever a press returns success — at whatever attempt index, and
with no replication involved (the source performs none) — its trace ends by
lowering the status LED and pulsing the success LED on for 2 seconds and
then off, before the pipeline returns. -/
theorem C9_success_pulse (st : CtrlState) (ws : Nat → Attempt)
    (h : (handle_button_press st ws).1.result = true) :
    successTail <:+ (handle_button_press st ws).1.events :=
  handle_true_suffix st ws h

/-- C9 witness: the concrete press succeeding on attempt 1 ends with the
success pulse. -/
theorem C9_success_pulse_witness :
    successTail <:+ (handle_button_press stEx wsSecond).1.events :=
  C9_success_pulse stEx wsSecond (by decide)

/-- C10: the press pipeline never mutates the configuration or
`network_connected` — the object state after `handle_button_press` is
exactly the input state — while `indicate_network_status` is the writer of
`network_connected`: it sets that field to the probe's outcome and changes
nothing else. -/
theorem C10_frame (st : CtrlState) (ws : Nat → Attempt) (probe : Bool) :
    (handle_button_press st ws).2 = st ∧
    (indicate_network_status st probe).1 =
      { st with network_connected := probe } := by
  refine ⟨handle_state st ws, ?_⟩
  unfold indicate_network_status
  by_cases hp : probe <;> simp [hp]

end Initiation
